import Mathlib

/-!
Verification development for the Zyra tree-walking interpreter
(lexer.py / ast_nodes_enhanced.py / interpreter.py).

The development shallowly embeds the parts of the interpreter that the
checked properties are about:

* the ordered token alternation of the lexer (`TOKEN_SPEC`),
* the sized-integer wrap transforms (`Environment.wrap_type` /
  `Environment.signed_wrap`),
* the AST node set, the runtime value model, the parent-linked
  environment store, and the recursive evaluator
  (`Interpreter._eval_node` and its helpers), with Python exceptions
  (`ReturnException` / `BreakException` / `ContinueException` /
  `RuntimeError`) modelled as an explicit `Outcome` signal threaded
  through evaluation, and the mutable environment tree modelled as an
  arena of environment records addressed by index.

Machine integers are `Int` with the explicit masks and moduli of the
source; Python `%` and `//` (floor-convention) are `Int.fmod` and
`Int.fdiv`; Python `&` on integers is `Int.land` (two's complement).
Python floats appear in the modelled fragment only as opaque literal
payloads carried through declaration and lookup; they are represented
by exact rationals, and no claim depends on float rounding.
-/

set_option maxRecDepth 8000

namespace Zyra

/-! ## Lexer: the ordered token alternation

The lexer builds one regular-expression alternation from `TOKEN_SPEC`
(src/lexer.py lines 3-51) and scans the input left to right; at each
position the first pattern of the alternation that matches wins, so the
list order is the matching priority.  The token-kind names are listed
here in exactly the source order of `TOKEN_SPEC`; the regex texts
themselves play no role in the ordering properties checked below. -/

def TOKEN_SPEC : List String :=
  [ "FLOAT_HEX", "INT_HEX", "INT_OCTAL", "INT_BINARY",
    "BIGINT", "DECIMAL", "FLOAT", "NUMBER",
    "STRING_INTERP", "STRING", "RAW_STRING", "MULTILINE_STRING",
    "CHAR", "BOOL", "NULL",
    "ID",
    "OP",
    "LPAREN", "RPAREN", "LBRACE", "RBRACE", "LBRACKET", "RBRACKET",
    "SEMICOL", "COLON", "COMMA", "DOT", "AT", "HASH", "DOLLAR",
    "NEWLINE", "SKIP", "MISMATCH" ]

/-- Position of a token class in the alternation; a smaller index is
tried first by the scanner. -/
def specIdx (kind : String) : Nat := TOKEN_SPEC.indexOf kind

/-! ## Sized-integer wrap (Environment.wrap_type / signed_wrap)

`wrap_type` (src/interpreter.py lines 154-167) dispatches on the type
name: unsigned names mask with `2^N - 1`, signed names and
`isize`/`ptrdiff` apply the two's-complement wrap `signed_wrap`
(lines 169-171), and `usize` reduces modulo `2^64`.  The source reads
the bit width out of the name with `int(var_type[4:])` respectively
`int(var_type[3:])` after a membership test on a fixed tuple of names;
here the same name-to-width table is spelled as an explicit match. -/

def uintBitSize : String → Option Nat
  | "uint8" => some 8
  | "uint16" => some 16
  | "uint32" => some 32
  | "uint64" => some 64
  | "uint128" => some 128
  | "uint256" => some 256
  | _ => none

def intBitSize : String → Option Nat
  | "int8" => some 8
  | "int16" => some 16
  | "int32" => some 32
  | "int64" => some 64
  | "int128" => some 128
  | "int256" => some 256
  | _ => none

/-- Two's complement wrapping for signed integers
(`Environment.signed_wrap`); Python `%` is `Int.fmod`. -/
def signed_wrap (value : Int) (bits : Nat) : Int :=
  Int.fmod (value + 2 ^ (bits - 1)) (2 ^ bits) - 2 ^ (bits - 1)

/-- Type-directed integer wrapping (`Environment.wrap_type`). -/
def wrap_type (varType : String) (value : Int) : Int :=
  match uintBitSize varType with
  | some bits => Int.land value (2 ^ bits - 1)
  | none =>
    match intBitSize varType with
    | some bits => signed_wrap value bits
    | none =>
      if varType = "isize" ∨ varType = "ptrdiff" then signed_wrap value 64
      else if varType = "usize" then Int.fmod value (2 ^ 64)
      else value

/-! ## AST (ast_nodes_enhanced.py)

The node set below covers the statement and expression forms the
checked properties exercise; nodes whose evaluation none of them can
reach (C-style and for-in loops, dict/set/range literals, slices,
printf, imports, augmented and member assignment, ternary, async
forms) are omitted from the embedding.  Literal payloads are the
primitive constants the parser produces.  Python floats and decimals
are carried as exact rationals.

The `unionDef` node: the interpreter dispatches on AST classes
`UnionDef` / `TypedefStruct` / `TypedefUnion` that are declared in a
module of the repository not present under src (only their consumers
in interpreter.py are).  Modelled from the spec: a union definition
node carries a name and a field list and registers into the defining
scope's union namespace, exactly like `StructDef` does for structs. -/

inductive Lit where
  | vnull
  | vbool (b : Bool)
  | vint (n : Int)
  | vrat (q : Rat)
  | vstr (s : String)
deriving Repr

/-- Parameter of a function definition: declared type, name, default
expression (`FunctionDef.params` entries `(type, name, default)`). -/
inductive Node where
  | literal (v : Lit)
  | identifier (name : String)
  | varDecl (varType : Option String) (name : String) (value : Node)
      (isConst : Bool) (isMut : Bool)
  | assignment (name : String) (value : Node)
  | binaryOp (left : Node) (op : String) (right : Node)
  | unaryOp (op : String) (expr : Node)
  | arrayLiteral (elements : List Node)
  | tupleLiteral (elements : List Node)
  | uintLiteral (value : Node) (bitSize : Nat)
  | intLiteral (value : Node) (bits : Nat)
  | sizeIntLiteral (expr : Node) (signed : Bool)
  | ptrDiffLiteral (expr : Node)
  | ifStatement (condition : Node) (thenBody : List Node) (elseBody : List Node)
  | whileLoop (condition : Node) (body : List Node)
  | switchStatement (expr : Node) (cases : List (Node × List Node))
      (dfault : List Node)
  | matchStatement (expr : Node) (arms : List (Node × Option Node × List Node))
  | breakStatement (value : Option Node)
  | continueStatement
  | returnStatement (expr : Option Node)
  | functionDef (name : String)
      (params : List (Option String × String × Option Node)) (body : List Node)
  | functionCall (name : String) (args : List Node)
  | lambdaExpr (params : List String) (body : Node)
  | printStatement (expr : Node)
  | tryCatchStatement (tryBlock : List Node)
      (catchClauses : List (Option String × Option String × List Node))
      (finallyBlock : List Node)
  | throwStatement (expr : Node)
  | structDef (name : String)
      (fields : List (String × Option String × Option Node))
  | unionDef (name : String)
      (fields : List (String × Option String × Option Node))
  | structLiteralNamed (structName : String) (fields : List (String × Node))
  | structLiteralPos (structName : String) (fields : List Node)
  | memberAccess (obj : Node) (member : String)
deriving Repr

/-! ## Runtime values (interpreter.py Function / Lambda / Struct / Union) -/

/-- Runtime value.  Functions and lambdas carry the arena index of
their captured defining environment — a handle, never a copy. -/
inductive Value where
  | vnull
  | vbool (b : Bool)
  | vint (n : Int)
  | vrat (q : Rat)
  | vstr (s : String)
  | varr (elements : List Value)
  | vtup (elements : List Value)
  | vfunc (name : String)
      (params : List (Option String × String × Option Node))
      (body : List Node) (env : Nat)
  | vlambda (params : List String) (body : Node) (env : Nat)
  | vstruct (structName : String) (fields : List (String × Value))
  | vunion (unionName : String) (activeField : String) (value : Value)
deriving Repr

def litToValue : Lit → Value
  | .vnull => .vnull
  | .vbool b => .vbool b
  | .vint n => .vint n
  | .vrat q => .vrat q
  | .vstr s => .vstr s

/-! ## Environments (Environment, interpreter.py lines 89-171)

Each environment owns a binding table
name -> (value, type, is_const, is_mut) plus separate struct/union
namespaces, and a parent link.  The mutable Python objects become an
arena: the interpreter state holds a list of environment records, and
every reference to an environment (the current scope, a parent link, a
closure capture) is an index into it.  Printing output is collected in
the state so that evaluation-order properties are observable. -/

structure VarEntry where
  value : Value
  varType : Option String
  isConst : Bool
  isMut : Bool
deriving Repr

structure EnvRec where
  vars : List (String × VarEntry)
  parent : Option Nat
  structs : List (String × List (String × Option String × Option Node))
  unions : List (String × List (String × Option String × Option Node))
deriving Repr

structure St where
  envs : List EnvRec
  output : List String
deriving Repr

/-- Python dict assignment on an association list: replace in place if
the key is present, else append. -/
def upsert {β : Type} : List (String × β) → String → β → List (String × β)
  | [], x, b => [(x, b)]
  | (y, by1) :: rest, x, b =>
    if y == x then (x, b) :: rest else (y, by1) :: upsert rest x b

/-- Error distinguished by Python exception class name and message. -/
abbrev PyErr := String × String

/-- Single-quote character, written by code point. -/
def sq : String := "\x27"

/-- Integer-typed names: those for which `wrap_type` is not the
identity dispatch. -/
def isIntType (t : String) : Bool :=
  (uintBitSize t).isSome || (intBitSize t).isSome ||
    t == "isize" || t == "ptrdiff" || t == "usize"

/-- Type wrapping applied by `Environment.define` and
`Environment.set` before storage.  Python `bool` is an `int` subtype,
so booleans wrap as 0/1; wrapping a non-integer value under an integer
type raises a TypeError in the source. -/
def wrapValue (ty : Option String) (v : Value) : Except PyErr Value :=
  match ty with
  | none => .ok v
  | some t =>
    if isIntType t then
      match v with
      | .vint n => .ok (.vint (wrap_type t n))
      | .vbool b => .ok (.vint (wrap_type t (if b then 1 else 0)))
      | _ => .error ("TypeError", "unsupported operand type in integer wrap")
    else .ok v

/-- Walk the scope chain for the entry of a name
(`Environment.get` and friends).  The fuel bounds the parent walk; all
states built by the evaluator have parent indices below the child
index, so a fuel of the arena size is always enough. -/
def lookupEntry (st : St) : Nat → Nat → String → Option VarEntry
  | 0, _, _ => none
  | fuel + 1, i, x =>
    match st.envs.get? i with
    | none => none
    | some e =>
      match e.vars.lookup x with
      | some ent => some ent
      | none =>
        match e.parent with
        | some p => lookupEntry st fuel p x
        | none => none

/-- Variable lookup with the default chain fuel. -/
def getVarD (st : St) (i : Nat) (x : String) : Option Value :=
  (lookupEntry st (st.envs.length + 1) i x).map (·.value)

/-- Define a new variable in environment `i`
(`Environment.define`); shadowing is legal, type wrapping is applied
before storage. -/
def pyDefine (st : St) (i : Nat) (x : String) (v : Value) (ty : Option String)
    (isConst : Bool) (isMut : Bool) : Except PyErr St :=
  match st.envs.get? i with
  | none => .error ("RuntimeError", "invalid environment")
  | some e =>
    match wrapValue ty v with
    | .error err => .error err
    | .ok v1 =>
      .ok { st with
            envs := st.envs.set i
              { e with vars := upsert e.vars x ⟨v1, ty, isConst, isMut⟩ } }

/-- Define, swallowing the (unreachable for valid indices) arena
error; used where the source cannot fail (`match_pattern`, catch-var
binding). -/
def defineD (st : St) (i : Nat) (x : String) (v : Value) : St :=
  match pyDefine st i x v none false true with
  | .ok st1 => st1
  | .error _ => st

/-- Update a variable (`Environment.set`): the nearest owner in the
chain is mutated, const and non-mut bindings are rejected, the
declared type wrap is re-applied, and a name absent from the whole
chain is auto-defined in the current environment. -/
def pySet (st : St) : Nat → Nat → String → Value → Except PyErr St
  | 0, _, _, _ => .error ("RuntimeError", "invalid environment")
  | fuel + 1, i, x, v =>
    match st.envs.get? i with
    | none => .error ("RuntimeError", "invalid environment")
    | some e =>
      match e.vars.lookup x with
      | some ent =>
        if ent.isConst then
          .error ("RuntimeError",
            "Cannot assign to const variable " ++ sq ++ x ++ sq)
        else if !ent.isMut then
          .error ("RuntimeError",
            "Cannot assign to immutable variable " ++ sq ++ x ++ sq)
        else
          match wrapValue ent.varType v with
          | .error err => .error err
          | .ok v1 =>
            .ok { st with
                  envs := st.envs.set i
                    { e with
                      vars := upsert e.vars x
                        ⟨v1, ent.varType, ent.isConst, ent.isMut⟩ } }
      | none =>
        match e.parent with
        | some p => pySet st fuel p x v
        | none => pyDefine st i x v none false true

/-- Variable update with the default chain fuel. -/
def pySetD (st : St) (i : Nat) (x : String) (v : Value) : Except PyErr St :=
  pySet st (st.envs.length + 1) i x v

/-- Allocate a fresh environment with the given parent
(`Environment(parent=...)`), returning its arena index. -/
def pushEnv (st : St) (parent : Option Nat) : Nat × St :=
  (st.envs.length,
   { st with envs := st.envs ++ [⟨[], parent, [], []⟩] })

/-- Walk the chain for a union definition (`StructLiteral` evaluation
searches every ancestor's unions first). -/
def findUnion (st : St) : Nat → Nat → String →
    Option (List (String × Option String × Option Node))
  | 0, _, _ => none
  | fuel + 1, i, x =>
    match st.envs.get? i with
    | none => none
    | some e =>
      match e.unions.lookup x with
      | some d => some d
      | none =>
        match e.parent with
        | some p => findUnion st fuel p x
        | none => none

/-- Walk the chain for a struct definition. -/
def findStruct (st : St) : Nat → Nat → String →
    Option (List (String × Option String × Option Node))
  | 0, _, _ => none
  | fuel + 1, i, x =>
    match st.envs.get? i with
    | none => none
    | some e =>
      match e.structs.lookup x with
      | some d => some d
      | none =>
        match e.parent with
        | some p => findStruct st fuel p x
        | none => none

/-- Initial interpreter state: one global environment.  The builtin
table installed by `setup_builtins` consists of host callables that no
checked property touches; it is left out of the arena. -/
def initSt : St := ⟨[⟨[], none, [], []⟩], []⟩

/-! ## Value helpers: truthiness, equality, display, coercion -/

/-- Python truthiness of the modelled value fragment. -/
def truthy : Value → Bool
  | .vnull => false
  | .vbool b => b
  | .vint n => n != 0
  | .vrat q => q != 0
  | .vstr s => !s.isEmpty
  | .varr l => !l.isEmpty
  | .vtup l => !l.isEmpty
  | .vfunc _ _ _ _ => true
  | .vlambda _ _ _ => true
  | .vstruct _ _ => true
  | .vunion _ _ _ => true

/-- Numeric view: Python compares and mixes int, bool and float as one
numeric tower. -/
def numVal : Value → Option Rat
  | .vbool b => some (if b then 1 else 0)
  | .vint n => some (n : Rat)
  | .vrat q => some q
  | _ => none

mutual

/-- Python `==` on the modelled fragment: numeric values compare by
value across int/bool/float, strings and null compare by kind,
sequences compare elementwise (list with list, tuple with tuple).
Functions, structs and unions compare by object identity in Python;
distinct construction sites are modelled as unequal. -/
def pyEq : Value → Value → Bool
  | .vnull, .vnull => true
  | .vstr a, .vstr b => a == b
  | .varr a, .varr b => pyEqList a b
  | .vtup a, .vtup b => pyEqList a b
  | a, b =>
    match numVal a, numVal b with
    | some x, some y => x == y
    | _, _ => false

def pyEqList : List Value → List Value → Bool
  | [], [] => true
  | a :: as1, b :: bs1 => pyEq a b && pyEqList as1 bs1
  | _, _ => false

end

/-- Python `str()` of a value, as far as the checked properties need
it (primitives faithfully; the display of aggregate and callable
values is schematic and no claim depends on it). -/
def pyStr : Value → String
  | .vnull => "None"
  | .vbool true => "True"
  | .vbool false => "False"
  | .vint n => toString n
  | .vrat q => toString q
  | .vstr s => s
  | .varr _ => "<list>"
  | .vtup _ => "<tuple>"
  | .vfunc n _ _ _ => "<Function " ++ n ++ ">"
  | .vlambda _ _ _ => "<Lambda>"
  | .vstruct n _ => "<Struct " ++ n ++ ">"
  | .vunion n _ _ => "<Union " ++ n ++ ">"

/-- Python class name of a value (used in error messages). -/
def pyTypeName : Value → String
  | .vnull => "NoneType"
  | .vbool _ => "bool"
  | .vint _ => "int"
  | .vrat _ => "float"
  | .vstr _ => "str"
  | .varr _ => "list"
  | .vtup _ => "tuple"
  | .vfunc _ _ _ _ => "Function"
  | .vlambda _ _ _ => "Lambda"
  | .vstruct _ _ => "Struct"
  | .vunion _ _ _ => "Union"

/-- Python `int()` coercion used by the bitwise operators: ints and
bools directly, floats truncate toward zero, numeric strings parse. -/
def pyInt : Value → Except PyErr Int
  | .vint n => .ok n
  | .vbool b => .ok (if b then 1 else 0)
  | .vrat q => .ok (if q ≥ 0 then q.floor else q.ceil)
  | .vstr s =>
    match s.toInt? with
    | some n => .ok n
    | none => .error ("ValueError", "invalid literal for int()")
  | v => .error ("TypeError", "int() argument must be a number, not " ++ pyTypeName v)

/-- Numeric comparison helper for the ordering operators: numbers
compare numerically, strings lexicographically, anything else is a
Python TypeError. -/
def pyLt : Value → Value → Except PyErr Bool
  | .vstr a, .vstr b => .ok (a < b)
  | a, b =>
    match numVal a, numVal b with
    | some x, some y => .ok (x < y)
    | _, _ =>
      .error ("TypeError",
        "unsupported comparison between " ++ pyTypeName a ++ " and " ++ pyTypeName b)

/-- Leading-segment test on character lists. -/
def prefixMatch : List Char → List Char → Bool
  | [], _ => true
  | _ :: _, [] => false
  | a :: as1, b :: bs1 => a == b && prefixMatch as1 bs1

/-- Contiguous-substring test (Python `in` on strings). -/
def substrMatch (needle hay : List Char) : Bool :=
  match hay with
  | [] => needle.isEmpty
  | _ :: rest => prefixMatch needle hay || substrMatch needle rest

/-- Membership `in`: substring for strings, element search for lists
and tuples. -/
def pyIn (a b : Value) : Except PyErr Bool :=
  match a, b with
  | .vstr n, .vstr h => .ok (substrMatch n.data h.data)
  | x, .varr l => .ok (l.any (pyEq x))
  | x, .vtup l => .ok (l.any (pyEq x))
  | _, v => .error ("TypeError", "argument of type " ++ pyTypeName v ++ " is not iterable")

/-- Binary arithmetic on the numeric tower: ints stay ints, any float
operand makes the result float (exact rationals model the float
values). -/
def numBin (f : Int → Int → Int) (g : Rat → Rat → Rat) :
    Value → Value → Option Value
  | .vint a, .vint b => some (.vint (f a b))
  | .vbool a, .vint b => some (.vint (f (if a then 1 else 0) b))
  | .vint a, .vbool b => some (.vint (f a (if b then 1 else 0)))
  | .vbool a, .vbool b => some (.vint (f (if a then 1 else 0) (if b then 1 else 0)))
  | a, b =>
    match numVal a, numVal b with
    | some x, some y => some (.vrat (g x y))
    | _, _ => none

/-- Evaluation of the binary operator table
(`Interpreter.eval_binary_op`, src/interpreter.py lines 615-695), on
the already-evaluated operands.  The set-reinterpretation branch of
the source is outside the modelled value fragment (no set values
exist here); sequence repetition (`str * int`) and mixed
exponent corner cases are likewise outside the fragment exercised by
any claim and are reported as type errors.  Identity `===`/`!==` is
modelled as structural equality on the immutable primitive fragment.
Logical `and`/`or` select an operand by truthiness — both operands
have already been evaluated by the time this function is applied. -/
def applyBin (op : String) (left right : Value) : Except PyErr Value :=
  match op with
  | "+" =>
    match left, right with
    | .vstr a, .vstr b => .ok (.vstr (a ++ b))
    | .varr a, .varr b => .ok (.varr (a ++ b))
    | .vtup a, .vtup b => .ok (.vtup (a ++ b))
    | a, b =>
      match numBin (· + ·) (· + ·) a b with
      | some v => .ok v
      | none =>
        .error ("TypeError",
          "unsupported operand types for +: " ++ pyTypeName a ++ " and " ++ pyTypeName b)
  | "-" =>
    match numBin (· - ·) (· - ·) left right with
    | some v => .ok v
    | none => .error ("TypeError", "unsupported operand types for -")
  | "*" =>
    match numBin (· * ·) (· * ·) left right with
    | some v => .ok v
    | none => .error ("TypeError", "unsupported operand types for *")
  | "/" =>
    match numVal left, numVal right with
    | some x, some y =>
      if y = 0 then .error ("ZeroDivisionError", "division by zero")
      else .ok (.vrat (x / y))
    | _, _ => .error ("TypeError", "unsupported operand types for /")
  | "//" =>
    match left, right with
    | .vint a, .vint b =>
      if b = 0 then .error ("ZeroDivisionError", "integer division or modulo by zero")
      else .ok (.vint (Int.fdiv a b))
    | _, _ => .error ("TypeError", "unsupported operand types for //")
  | "%" =>
    match left, right with
    | .vint a, .vint b =>
      if b = 0 then .error ("ZeroDivisionError", "integer division or modulo by zero")
      else .ok (.vint (Int.fmod a b))
    | _, _ => .error ("TypeError", "unsupported operand types for %")
  | "**" =>
    match left, right with
    | .vint a, .vint b =>
      if b ≥ 0 then .ok (.vint (a ^ b.toNat))
      else .ok (.vrat ((a : Rat) ^ b))
    | _, _ => .error ("TypeError", "unsupported operand types for **")
  | "==" => .ok (.vbool (pyEq left right))
  | "!=" => .ok (.vbool (!pyEq left right))
  | "<" =>
    match pyLt left right with
    | .ok b => .ok (.vbool b)
    | .error e => .error e
  | ">" =>
    match pyLt right left with
    | .ok b => .ok (.vbool b)
    | .error e => .error e
  | "<=" =>
    match pyLt right left with
    | .ok b => .ok (.vbool !b)
    | .error e => .error e
  | ">=" =>
    match pyLt left right with
    | .ok b => .ok (.vbool !b)
    | .error e => .error e
  | "===" => .ok (.vbool (pyEq left right))
  | "!==" => .ok (.vbool (!pyEq left right))
  | "<=>" =>
    match pyLt left right with
    | .error e => .error e
    | .ok lt =>
      if lt then .ok (.vint (-1))
      else if pyEq left right then .ok (.vint 0)
      else .ok (.vint 1)
  | "in" =>
    match pyIn left right with
    | .ok b => .ok (.vbool b)
    | .error e => .error e
  | "and" => .ok (if truthy left then right else left)
  | "&&" => .ok (if truthy left then right else left)
  | "or" => .ok (if truthy left then left else right)
  | "||" => .ok (if truthy left then left else right)
  | "xor" => .ok (.vbool (truthy left ^^ truthy right))
  | "then" => .ok (if !truthy left then .vbool true else right)
  | "nand" => .ok (.vbool (!(truthy left && truthy right)))
  | "&" =>
    match pyInt left, pyInt right with
    | .ok a, .ok b => .ok (.vint (Int.land a b))
    | .error e, _ => .error e
    | _, .error e => .error e
  | "|" =>
    match pyInt left, pyInt right with
    | .ok a, .ok b => .ok (.vint (Int.lor a b))
    | .error e, _ => .error e
    | _, .error e => .error e
  | "^" =>
    match pyInt left, pyInt right with
    | .ok a, .ok b => .ok (.vint (Int.xor a b))
    | .error e, _ => .error e
    | _, .error e => .error e
  | "<<" =>
    match pyInt left, pyInt right with
    | .ok a, .ok b =>
      if b < 0 then .error ("ValueError", "negative shift count")
      else .ok (.vint (a * 2 ^ b.toNat))
    | .error e, _ => .error e
    | _, .error e => .error e
  | ">>" =>
    match pyInt left, pyInt right with
    | .ok a, .ok b =>
      if b < 0 then .error ("ValueError", "negative shift count")
      else .ok (.vint (Int.fdiv a (2 ^ b.toNat)))
    | .error e, _ => .error e
    | _, .error e => .error e
  | _ => .error ("RuntimeError", "Unknown binary operator: " ++ op)

/-! ## Evaluation outcomes

Python control flow in the source is exception based:
`ReturnException` / `BreakException` / `ContinueException` (which the
`eval` wrapper re-raises untouched) and `RuntimeError` plus other host
exceptions (which the wrapper converts to `RuntimeError`).  They
become an explicit outcome threaded through evaluation.  The `err`
constructor carries the exception class name (as `try/catch` matches
on it) and the message. -/

inductive Outcome where
  | ok (v : Value)
  | ret (v : Value)
  | brk (v : Value)
  | cont
  | err (exc : String) (msg : String)
deriving Repr

/-- Left-to-right non-overlapping replacement of `old` by `new`
(Python `str.replace`); the fuel is the remaining input length. -/
def replaceFrom (old new : List Char) : Nat → List Char → List Char
  | _, [] => []
  | 0, s => s
  | fuel + 1, c :: rest =>
    if !old.isEmpty && prefixMatch old (c :: rest) then
      new ++ replaceFrom old new fuel ((c :: rest).drop old.length)
    else c :: replaceFrom old new fuel rest

def replaceAll (s : String) (old new : String) : String :=
  ⟨replaceFrom old.data new.data s.data.length s.data⟩

/-- Backslash-escape substitution applied by `print` to textual
values (line 449), in the source's replacement order. -/
def escapeStr (s : String) : String :=
  replaceAll (replaceAll (replaceAll (replaceAll s "\\n" "\n") "\\t" "\t") "\\r" "\r")
    "\\\\" "\\"

/-- Conversion performed by `Interpreter.eval` (lines 198-208): a
control-flow exception or `RuntimeError` passes through, any other
exception is rewrapped as a `RuntimeError` with a prefixed message. -/
def wrapErr (e : PyErr) : Outcome :=
  if e.1 == "RuntimeError" then .err "RuntimeError" e.2
  else .err "RuntimeError" ("Runtime error: " ++ e.2)

/-- Exception class name of a non-ok outcome, as `try/catch` clause
matching sees it. -/
def excTypeName : Outcome → String
  | .ok _ => ""
  | .ret _ => "ReturnException"
  | .brk _ => "BreakException"
  | .cont => "ContinueException"
  | .err exc _ => exc

/-- Stringification `str(e)` of a caught exception bound to a catch
variable.  Nodes in the modelled fragment carry no positions, so the
message carries no position suffix. -/
def excString : Outcome → String
  | .ok _ => ""
  | .ret v => pyStr v
  | .brk v => pyStr v
  | .cont => ""
  | .err _ msg => msg

/-- Catch-clause matching (line 469): a clause with no declared type
catches everything `except Exception` caught; a declared type matches
by substring test against the exception class name. -/
def clauseMatches (exTy : Option String) (sig : Outcome) : Bool :=
  match exTy with
  | none => true
  | some t => substrMatch t.data (excTypeName sig).data

/-! ## Pattern matching (Interpreter.match_pattern, lines 829-861)

Stateful: a bare identifier pattern defines a binding in the current
environment and matches unconditionally.  The fuel only bounds
tuple/array pattern nesting depth. -/

/-- All-elements matcher mirroring the short-circuiting
`all(self.match_pattern(p, v) for ...)`: bindings made before the
first failing element persist. -/
def matchAll (f : Node → Value → St → St × Bool) :
    List Node → List Value → St → St × Bool
  | [], [], st => (st, true)
  | p :: ps, v :: vs, st =>
    match f p v st with
    | (st1, true) => matchAll f ps vs st1
    | (st1, false) => (st1, false)
  | _, _, st => (st, false)

def matchPattern : Nat → St → Nat → Node → Value → St × Bool
  | 0, st, _, _, _ => (st, false)
  | fuel + 1, st, env, pat, v =>
    match pat with
    | .identifier x =>
      if x == "_" then (st, true)
      else (defineD st env x v, true)
    | .literal lv => (st, pyEq (litToValue lv) v)
    | .tupleLiteral ps =>
      match v with
      | .vtup vs =>
        if ps.length == vs.length then
          matchAll (fun p w s => matchPattern fuel s env p w) ps vs st
        else (st, false)
      | _ => (st, false)
    | .arrayLiteral ps =>
      match v with
      | .varr vs =>
        if ps.length == vs.length then
          matchAll (fun p w s => matchPattern fuel s env p w) ps vs st
        else (st, false)
      | _ => (st, false)
    | _ => (st, false)

/-! ## The evaluator

`Interpreter._eval_node` becomes `evalStep`, parameterized by the
recursive evaluation function (`self.eval`) to keep the recursion
structural on an explicit depth fuel; `eval fuel` threads the state,
the current-environment index (the source's mutable `self.env`, whose
every mutation in the modelled fragment is scoped save/restore), and
the node. -/

abbrev Recur := St → Nat → Node → St × Outcome

/-- Statement-list runner: Python loops `for stmt in ...:
self.eval(stmt)` propagate any exception; the top-level `Program` loop
keeps the last statement value, which sequencing contexts discard. -/
def runSeq (recur : Recur) (st : St) (env : Nat) : List Node → St × Outcome
  | [] => (st, .ok .vnull)
  | n :: ns =>
    match recur st env n with
    | (st1, .ok v) =>
      match ns with
      | [] => (st1, .ok v)
      | _ => runSeq recur st1 env ns
    | r => r

/-- Element-list evaluation for array and tuple literals. -/
def evalNodes (recur : Recur) (st : St) (env : Nat) :
    List Node → St × Except Outcome (List Value)
  | [] => (st, .ok [])
  | n :: ns =>
    match recur st env n with
    | (st1, .ok v) =>
      match evalNodes recur st1 env ns with
      | (st2, .ok vs) => (st2, .ok (v :: vs))
      | r => r
    | (st1, o) => (st1, .error o)

/-- Switch case body runner (lines 387-396): a syntactically
top-level `break` ends the case without evaluating anything, a
top-level `continue` is skipped by the Python `continue` of the
statement loop, a `BreakException` raised from a nested statement is
caught and ends the case; return/continue signals and errors raised
from nested statements propagate out of the switch. -/
def evalCaseBody (recur : Recur) (st : St) (env : Nat) :
    List Node → St × Outcome
  | [] => (st, .ok .vnull)
  | stmt :: rest =>
    match stmt with
    | .breakStatement _ => (st, .ok .vnull)
    | .continueStatement => evalCaseBody recur st env rest
    | _ =>
      match recur st env stmt with
      | (st1, .ok _) => evalCaseBody recur st1 env rest
      | (st1, .brk _) => (st1, .ok .vnull)
      | r => r

/-- Switch dispatch (lines 382-401): case values evaluate in order
until one compares equal; with no match the default body runs. -/
def evalSwitchCases (recur : Recur) (st : St) (env : Nat) (sval : Value) :
    List (Node × List Node) → List Node → St × Outcome
  | [], dfault =>
    match dfault with
    | [] => (st, .ok .vnull)
    | ds =>
      match runSeq recur st env ds with
      | (st1, .ok _) => (st1, .ok .vnull)
      | r => r
  | (cv, stmts) :: rest, dfault =>
    match recur st env cv with
    | (st1, .ok v) =>
      if pyEq sval v then evalCaseBody recur st1 env stmts
      else evalSwitchCases recur st1 env sval rest dfault
    | r => r

/-- Match arms (lines 403-410): first arm whose pattern matches and
whose guard is absent or truthy fires; bindings installed by patterns
of non-firing arms persist in the current environment. -/
def evalMatchArms (fuel : Nat) (recur : Recur) (st : St) (env : Nat)
    (val : Value) : List (Node × Option Node × List Node) → St × Outcome
  | [] => (st, .ok .vnull)
  | (pat, guard, body) :: rest =>
    match matchPattern fuel st env pat val with
    | (st1, true) =>
      match guard with
      | none =>
        match runSeq recur st1 env body with
        | (st2, .ok _) => (st2, .ok .vnull)
        | r => r
      | some g =>
        match recur st1 env g with
        | (st2, .ok gv) =>
          if truthy gv then
            match runSeq recur st2 env body with
            | (st3, .ok _) => (st3, .ok .vnull)
            | r => r
          else evalMatchArms fuel recur st2 env val rest
        | r => r
    | (st1, false) => evalMatchArms fuel recur st1 env val rest

/-- Catch clause selection (lines 464-477): first matching clause
runs, binding the stringified exception to the catch variable in the
current environment; no match re-raises. -/
def tryCatches (recur : Recur) (st : St) (env : Nat) (sig : Outcome) :
    List (Option String × Option String × List Node) → St × Outcome
  | [] => (st, sig)
  | (exTy, cvar, block) :: rest =>
    if clauseMatches exTy sig then
      let st1 :=
        match cvar with
        | some cv => defineD st env cv (.vstr (excString sig))
        | none => st
      match runSeq recur st1 env block with
      | (st2, .ok _) => (st2, .ok .vnull)
      | r => r
    else tryCatches recur st env sig rest

/-- Parameter binding of a user-function call (lines 782-789):
left-to-right, the supplied argument if present, else the default
expression, else null — argument and default expressions evaluate in
the caller's environment (the source switches `self.env` to the new
frame only after this loop), while the bindings land in the new frame
with the declared parameter type applied. -/
def bindParams (recur : Recur) (st : St) (callerEnv fid : Nat) :
    List (Option String × String × Option Node) → List Node →
    St × Option Outcome
  | [], _ => (st, none)
  | (pty, pname, pdef) :: ps, args =>
    let (st1, res) :=
      match args with
      | a :: _ => recur st callerEnv a
      | [] =>
        match pdef with
        | some d => recur st callerEnv d
        | none => (st, .ok .vnull)
    match res with
    | .ok v =>
      match pyDefine st1 fid pname v pty false true with
      | .ok st2 => bindParams recur st2 callerEnv fid ps args.tail
      | .error e => (st1, some (wrapErr e))
    | o => (st1, some o)

/-- Parameter binding of a lambda call (lines 815-818): positional,
untyped, no defaults. -/
def bindLambdaParams (recur : Recur) (st : St) (callerEnv fid : Nat) :
    List String → List Node → St × Option Outcome
  | [], _ => (st, none)
  | _ :: _, [] => (st, none)
  | p :: ps, a :: args =>
    match recur st callerEnv a with
    | (st1, .ok v) =>
      match pyDefine st1 fid p v none false true with
      | .ok st2 => bindLambdaParams recur st2 callerEnv fid ps args
      | .error e => (st1, some (wrapErr e))
    | (st1, o) => (st1, some o)

/-- Count of parameters without a default
(`sum(1 for _, _, default in params if default is None)`). -/
def requiredCount (params : List (Option String × String × Option Node)) : Nat :=
  (params.filter (fun p => p.2.2.isNone)).length

/-- Arity error message of line 776. -/
def arityMsg (name : String) (required total got : Nat) : String :=
  "Function " ++ sq ++ name ++ sq ++ " expects " ++ toString required ++ "-"
    ++ toString total ++ " arguments, got " ++ toString got

/-- Struct construction: apply declared field defaults first
(lines 534-541). -/
def foldFieldDefaults (recur : Recur) (st : St) (env : Nat) :
    List (String × Option String × Option Node) → List (String × Value) →
    St × Except Outcome (List (String × Value))
  | [], acc => (st, .ok acc)
  | (fname, _, fdefault) :: rest, acc =>
    match fdefault with
    | none => foldFieldDefaults recur st env rest acc
    | some d =>
      match recur st env d with
      | (st1, .ok v) => foldFieldDefaults recur st1 env rest (upsert acc fname v)
      | (st1, o) => (st1, .error o)

/-- Struct construction: override with supplied named fields
(lines 544-546). -/
def foldNamedFields (recur : Recur) (st : St) (env : Nat) :
    List (String × Node) → List (String × Value) →
    St × Except Outcome (List (String × Value))
  | [], acc => (st, .ok acc)
  | (fname, e) :: rest, acc =>
    match recur st env e with
    | (st1, .ok v) => foldNamedFields recur st1 env rest (upsert acc fname v)
    | (st1, o) => (st1, .error o)

/-- Struct construction: positional fields bind by declaration order
(lines 548-551); an index beyond the declared fields is the Python
IndexError surfaced as a wrapped runtime error. -/
def foldPosFields (recur : Recur) (st : St) (env : Nat)
    (sfields : List (String × Option String × Option Node)) :
    List Node → Nat → List (String × Value) →
    St × Except Outcome (List (String × Value))
  | [], _, acc => (st, .ok acc)
  | e :: rest, i, acc =>
    match sfields.get? i with
    | none => (st, .error (.err "RuntimeError" "Runtime error: list index out of range"))
    | some (fname, _, _) =>
      match recur st env e with
      | (st1, .ok v) => foldPosFields recur st1 env sfields rest (i + 1) (upsert acc fname v)
      | (st1, o) => (st1, .error o)

/-- One dispatch step of `Interpreter._eval_node`; `recur` is
`self.eval` at the next-smaller depth. -/
def evalStep (fuel : Nat) (recur : Recur) (st : St) (env : Nat) :
    Node → St × Outcome
  | .literal lv => (st, .ok (litToValue lv))
  | .identifier x =>
    match getVarD st env x with
    | some v => (st, .ok v)
    | none =>
      (st, .err "RuntimeError" ("Variable " ++ sq ++ x ++ sq ++ " not defined"))
  | .varDecl ty name value isConst isMut =>
    match recur st env value with
    | (st1, .ok v) =>
      match pyDefine st1 env name v ty isConst isMut with
      | .ok st2 => (st2, .ok v)
      | .error e => (st1, wrapErr e)
    | r => r
  | .assignment name value =>
    match recur st env value with
    | (st1, .ok v) =>
      match pySetD st1 env name v with
      | .ok st2 => (st2, .ok v)
      | .error e => (st1, wrapErr e)
    | r => r
  | .binaryOp l op r =>
    match recur st env l with
    | (st1, .ok lv) =>
      match recur st1 env r with
      | (st2, .ok rv) =>
        (st2, match applyBin op lv rv with
              | .ok v => .ok v
              | .error e => wrapErr e)
      | r2 => r2
    | r1 => r1
  | .unaryOp op e =>
    match recur st env e with
    | (st1, .ok v) =>
      match op with
      | "not" => (st1, .ok (.vbool (!truthy v)))
      | "!" => (st1, .ok (.vbool (!truthy v)))
      | "+" =>
        match v with
        | .vint n => (st1, .ok (.vint n))
        | .vbool b => (st1, .ok (.vint (if b then 1 else 0)))
        | .vrat q => (st1, .ok (.vrat q))
        | _ => (st1, wrapErr ("TypeError", "bad operand type for unary +"))
      | "-" =>
        match v with
        | .vint n => (st1, .ok (.vint (-n)))
        | .vbool b => (st1, .ok (.vint (-(if b then 1 else 0))))
        | .vrat q => (st1, .ok (.vrat (-q)))
        | _ => (st1, wrapErr ("TypeError", "bad operand type for unary -"))
      | "~" =>
        match pyInt v with
        | .ok n => (st1, .ok (.vint (-(n + 1))))
        | .error er => (st1, wrapErr er)
      | "++" =>
        match e with
        | .identifier x =>
          match applyBin "+" v (.vint 1) with
          | .ok nv =>
            match pySetD st1 env x nv with
            | .ok st2 => (st2, .ok nv)
            | .error er => (st1, wrapErr er)
          | .error er => (st1, wrapErr er)
        | _ => (st1, .err "RuntimeError" "Cannot increment non-variable")
      | "--" =>
        match e with
        | .identifier x =>
          match applyBin "-" v (.vint 1) with
          | .ok nv =>
            match pySetD st1 env x nv with
            | .ok st2 => (st2, .ok nv)
            | .error er => (st1, wrapErr er)
          | .error er => (st1, wrapErr er)
        | _ => (st1, .err "RuntimeError" "Cannot decrement non-variable")
      | "++_post" =>
        match e with
        | .identifier x =>
          match applyBin "+" v (.vint 1) with
          | .ok nv =>
            match pySetD st1 env x nv with
            | .ok st2 => (st2, .ok v)
            | .error er => (st1, wrapErr er)
          | .error er => (st1, wrapErr er)
        | _ => (st1, .err "RuntimeError" "Cannot increment non-variable")
      | "--_post" =>
        match e with
        | .identifier x =>
          match applyBin "-" v (.vint 1) with
          | .ok nv =>
            match pySetD st1 env x nv with
            | .ok st2 => (st2, .ok v)
            | .error er => (st1, wrapErr er)
          | .error er => (st1, wrapErr er)
        | _ => (st1, .err "RuntimeError" "Cannot decrement non-variable")
      | other => (st1, .err "RuntimeError" ("Unknown unary operator: " ++ other))
    | r => r
  | .arrayLiteral es =>
    match evalNodes recur st env es with
    | (st1, .ok vs) => (st1, .ok (.varr vs))
    | (st1, .error o) => (st1, o)
  | .tupleLiteral es =>
    match evalNodes recur st env es with
    | (st1, .ok vs) => (st1, .ok (.vtup vs))
    | (st1, .error o) => (st1, o)
  | .uintLiteral value bits =>
    match recur st env value with
    | (st1, .ok v) =>
      match v with
      | .vint n => (st1, .ok (.vint (Int.land n (2 ^ bits - 1))))
      | .vbool b => (st1, .ok (.vint (Int.land (if b then 1 else 0) (2 ^ bits - 1))))
      | _ => (st1, wrapErr ("TypeError", "unsupported operand types for &"))
    | r => r
  | .intLiteral value bits =>
    match recur st env value with
    | (st1, .ok v) =>
      match v with
      | .vint n => (st1, .ok (.vint (signed_wrap n bits)))
      | .vbool b => (st1, .ok (.vint (signed_wrap (if b then 1 else 0) bits)))
      | _ => (st1, wrapErr ("TypeError", "unsupported operand type in signed wrap"))
    | r => r
  | .sizeIntLiteral e signed =>
    match recur st env e with
    | (st1, .ok v) =>
      match v with
      | .vint n =>
        (st1, .ok (.vint (if signed then signed_wrap n 64 else Int.fmod n (2 ^ 64))))
      | .vbool b =>
        (st1, .ok (.vint (if signed then signed_wrap (if b then 1 else 0) 64
                          else Int.fmod (if b then 1 else 0) (2 ^ 64))))
      | _ => (st1, wrapErr ("TypeError", "unsupported operand type in size wrap"))
    | r => r
  | .ptrDiffLiteral e =>
    match recur st env e with
    | (st1, .ok v) =>
      match v with
      | .vint n => (st1, .ok (.vint (signed_wrap n 64)))
      | .vbool b => (st1, .ok (.vint (signed_wrap (if b then 1 else 0) 64)))
      | _ => (st1, wrapErr ("TypeError", "unsupported operand type in size wrap"))
    | r => r
  | .ifStatement cond thenBody elseBody =>
    match recur st env cond with
    | (st1, .ok c) =>
      if truthy c then
        match runSeq recur st1 env thenBody with
        | (st2, .ok _) => (st2, .ok .vnull)
        | r => r
      else
        match elseBody with
        | [] => (st1, .ok .vnull)
        | es =>
          match runSeq recur st1 env es with
          | (st2, .ok _) => (st2, .ok .vnull)
          | r => r
    | r => r
  | .whileLoop cond body =>
    match recur st env cond with
    | (st1, .ok c) =>
      if truthy c then
        match runSeq recur st1 env body with
        | (st2, .ok _) => recur st2 env (.whileLoop cond body)
        | (st2, .cont) => recur st2 env (.whileLoop cond body)
        | (st2, .brk _) => (st2, .ok .vnull)
        | r => r
      else (st1, .ok .vnull)
    | (st1, .brk _) => (st1, .ok .vnull)
    | r => r
  | .switchStatement e cases dfault =>
    match recur st env e with
    | (st1, .ok sval) => evalSwitchCases recur st1 env sval cases dfault
    | r => r
  | .matchStatement e arms =>
    match recur st env e with
    | (st1, .ok val) => evalMatchArms fuel recur st1 env val arms
    | r => r
  | .breakStatement value =>
    match value with
    | none => (st, .brk .vnull)
    | some e =>
      match recur st env e with
      | (st1, .ok v) => (st1, .brk v)
      | r => r
  | .continueStatement => (st, .cont)
  | .returnStatement e =>
    match e with
    | none => (st, .ret .vnull)
    | some e1 =>
      match recur st env e1 with
      | (st1, .ok v) => (st1, .ret v)
      | r => r
  | .functionDef name params body =>
    match pyDefine st env name (.vfunc name params body env) none true true with
    | .ok st1 => (st1, .ok (.vfunc name params body env))
    | .error e => (st, wrapErr e)
  | .functionCall fname args =>
    match getVarD st env fname with
    | none =>
      (st, .err "RuntimeError" ("Variable " ++ sq ++ fname ++ sq ++ " not defined"))
    | some f =>
      match f with
      | .vfunc nm ps bd envC =>
        if args.length < requiredCount ps ∨ ps.length < args.length then
          (st, .err "RuntimeError" (arityMsg nm (requiredCount ps) ps.length args.length))
        else
          match pushEnv st (some envC) with
          | (fid, st1) =>
            match bindParams recur st1 env fid ps args with
            | (st2, some o) => (st2, o)
            | (st2, none) =>
              match runSeq recur st2 fid bd with
              | (st3, .ok _) => (st3, .ok .vnull)
              | (st3, .ret v) => (st3, .ok v)
              | r => r
      | .vlambda ps bd envC =>
        if args.length ≠ ps.length then
          (st, .err "RuntimeError"
            ("Lambda expects " ++ toString ps.length ++ " arguments, got "
              ++ toString args.length))
        else
          match pushEnv st (some envC) with
          | (fid, st1) =>
            match bindLambdaParams recur st1 env fid ps args with
            | (st2, some o) => (st2, o)
            | (st2, none) => recur st2 fid bd
      | _ =>
        (st, .err "RuntimeError" (sq ++ fname ++ sq ++ " is not callable"))
  | .lambdaExpr params body => (st, .ok (.vlambda params body env))
  | .printStatement e =>
    match recur st env e with
    | (st1, .ok v) =>
      let shown :=
        match v with
        | .vstr s => escapeStr s
        | other => pyStr other
      ({ st1 with output := st1.output ++ [shown] }, .ok .vnull)
    | r => r
  | .tryCatchStatement tryBlock catchClauses finallyBlock =>
    match runSeq recur st env tryBlock with
    | (st1, o1) =>
      match
        (match o1 with
         | .ok _ => (st1, Outcome.ok .vnull)
         | o => tryCatches recur st1 env o catchClauses) with
      | (st2, o2) =>
        match finallyBlock with
        | [] => (st2, o2)
        | fb =>
          match runSeq recur st2 env fb with
          | (st3, .ok _) => (st3, o2)
          | r => r
  | .throwStatement e =>
    match recur st env e with
    | (st1, .ok v) => (st1, .err "RuntimeError" ("Runtime error: " ++ pyStr v))
    | r => r
  | .structDef name fields =>
    match st.envs.get? env with
    | none => (st, .err "RuntimeError" "invalid environment")
    | some e =>
      ({ st with envs := st.envs.set env { e with structs := upsert e.structs name fields } },
       .ok .vnull)
  | .unionDef name fields =>
    match st.envs.get? env with
    | none => (st, .err "RuntimeError" "invalid environment")
    | some e =>
      ({ st with envs := st.envs.set env { e with unions := upsert e.unions name fields } },
       .ok .vnull)
  | .structLiteralNamed sname fields =>
    match findUnion st (st.envs.length + 1) env sname with
    | some _ =>
      match fields with
      | [(fname, vexpr)] =>
        match recur st env vexpr with
        | (st1, .ok v) => (st1, .ok (.vunion sname fname v))
        | r => r
      | _ =>
        (st, .err "RuntimeError"
          ("Union " ++ sq ++ sname ++ sq ++ " can only be initialized with one field"))
    | none =>
      match findStruct st (st.envs.length + 1) env sname with
      | none => (st, .err "RuntimeError" ("Undefined struct or union: " ++ sname))
      | some sdef =>
        match foldFieldDefaults recur st env sdef [] with
        | (st1, .error o) => (st1, o)
        | (st1, .ok acc) =>
          match foldNamedFields recur st1 env fields acc with
          | (st2, .error o) => (st2, o)
          | (st2, .ok fmap) => (st2, .ok (.vstruct sname fmap))
  | .structLiteralPos sname fields =>
    match findUnion st (st.envs.length + 1) env sname with
    | some _ =>
      (st, .err "RuntimeError"
        ("Union " ++ sq ++ sname ++ sq ++ " can only be initialized with one field"))
    | none =>
      match findStruct st (st.envs.length + 1) env sname with
      | none => (st, .err "RuntimeError" ("Undefined struct or union: " ++ sname))
      | some sdef =>
        match foldFieldDefaults recur st env sdef [] with
        | (st1, .error o) => (st1, o)
        | (st1, .ok acc) =>
          match foldPosFields recur st1 env sdef fields 0 acc with
          | (st2, .error o) => (st2, o)
          | (st2, .ok fmap) => (st2, .ok (.vstruct sname fmap))
  | .memberAccess obj member =>
    match recur st env obj with
    | (st1, .ok v) =>
      match v with
      | .vstruct sname fs =>
        match fs.lookup member with
        | some fv => (st1, .ok fv)
        | none =>
          (st1, .err "RuntimeError"
            ("Struct " ++ sname ++ " has no field " ++ sq ++ member ++ sq))
      | .vunion _ active uval =>
        if member == active then (st1, .ok uval)
        else
          (st1, .err "RuntimeError"
            ("Union field " ++ sq ++ member ++ sq ++ " is not active (active field is "
              ++ sq ++ active ++ sq ++ ")"))
      | other =>
        (st1, .err "RuntimeError"
          ("Cannot access member " ++ sq ++ member ++ sq ++ " of " ++ pyTypeName other))
    | r => r

/-- Depth-fueled evaluation; `eval (fuel+1)` is one `_eval_node`
dispatch whose recursive `self.eval` calls run at depth `fuel`.
Exhausted fuel is the host RecursionError, surfaced (like every
non-control-flow exception) as a wrapped RuntimeError. -/
def eval : Nat → St → Nat → Node → St × Outcome
  | 0, st, _, _ =>
    (st, .err "RuntimeError" "Runtime error: maximum recursion depth exceeded")
  | fuel + 1, st, env, node => evalStep fuel (eval fuel) st env node

/-- Whole-program evaluation from the initial state, global
environment at arena index 0. -/
def evalProgram (fuel : Nat) (prog : List Node) : St × Outcome :=
  runSeq (eval fuel) initSt 0 prog

/-! ## Concrete test programs

Each program is the AST the parser produces for the small script
named in its comment. -/

/-- Script: fnc make() with a captured counter, a stored closure,
and two invocations of it. -/
def progClosure : List Node :=
  [ .functionDef "make" []
      [ .varDecl none "c" (.literal (.vint 0)) false true,
        .returnStatement (some (.lambdaExpr [] (.unaryOp "++" (.identifier "c")))) ],
    .varDecl none "h" (.functionCall "make" []) false true,
    .varDecl none "a" (.functionCall "h" []) false true,
    .varDecl none "b" (.functionCall "h" []) false true ]

/-- Script: a() prints A and returns false, b() prints B and returns
true, then a() and b(). -/
def progAnd : List Node :=
  [ .functionDef "a" []
      [ .printStatement (.literal (.vstr "A")),
        .returnStatement (some (.literal (.vbool false))) ],
    .functionDef "b" []
      [ .printStatement (.literal (.vstr "B")),
        .returnStatement (some (.literal (.vbool true))) ],
    .varDecl none "r"
      (.binaryOp (.functionCall "a" []) "and" (.functionCall "b" [])) false true ]

/-- Script: fnc f() whose body is a bare break, then a call of f. -/
def progBreakEscape : List Node :=
  [ .functionDef "f" [] [ .breakStatement none ],
    .functionCall "f" [] ]

/-- Script: fnc f() with a bare break, called from inside a counted
while loop. -/
def progBreakCross : List Node :=
  [ .functionDef "f" [] [ .breakStatement none ],
    .varDecl none "hits" (.literal (.vint 0)) false true,
    .whileLoop (.binaryOp (.identifier "hits") "<" (.literal (.vint 3)))
      [ .assignment "hits" (.binaryOp (.identifier "hits") "+" (.literal (.vint 1))),
        .functionCall "f" [] ] ]

/-- Script: a while loop whose body runs a switch; the matched case
breaks (from a nested statement), then the loop tail increments n. -/
def progSwitchBreak : List Node :=
  [ .varDecl none "i" (.literal (.vint 0)) false true,
    .varDecl none "n" (.literal (.vint 0)) false true,
    .whileLoop (.binaryOp (.identifier "i") "<" (.literal (.vint 3)))
      [ .assignment "i" (.binaryOp (.identifier "i") "+" (.literal (.vint 1))),
        .switchStatement (.literal (.vint 1))
          [ (.literal (.vint 1),
             [ .ifStatement (.literal (.vbool true)) [ .breakStatement none ] [],
               .assignment "n" (.literal (.vint 99)) ]) ] [],
        .assignment "n" (.binaryOp (.identifier "n") "+" (.literal (.vint 1))) ] ]

/-- Script: fnc g() returning 7 from inside a switch case inside an
infinite while loop. -/
def progReturnNested : List Node :=
  [ .functionDef "g" []
      [ .whileLoop (.literal (.vbool true))
          [ .switchStatement (.literal (.vint 1))
              [ (.literal (.vint 1),
                 [ .ifStatement (.literal (.vbool true))
                     [ .returnStatement (some (.literal (.vint 7))) ] [] ]) ] [] ] ],
    .varDecl none "r" (.functionCall "g" []) false true ]

/-- Script: fnc g() that returns 1 inside try with a bare catch, then
returns 2. -/
def progTryReturn : List Node :=
  [ .functionDef "g" []
      [ .tryCatchStatement [ .returnStatement (some (.literal (.vint 1))) ]
          [ (none, some "e", []) ] [],
        .returnStatement (some (.literal (.vint 2))) ],
    .varDecl none "r" (.functionCall "g" []) false true ]

/-- Script: global y = 10, fnc f(x = y) returning x, fnc g() that
declares a local y = 99 and calls f(). -/
def progDefaultEnv : List Node :=
  [ .varDecl none "y" (.literal (.vint 10)) false true,
    .functionDef "f" [ (none, "x", some (.identifier "y")) ]
      [ .returnStatement (some (.identifier "x")) ],
    .functionDef "g" []
      [ .varDecl none "y" (.literal (.vint 99)) false true,
        .returnStatement (some (.functionCall "f" [])) ],
    .varDecl none "r" (.functionCall "g" []) false true ]

/-- Function definition statement: fnc f2(p, q = 5) returning p + q. -/
def defF2 : Node :=
  .functionDef "f2" [ (none, "p", none), (none, "q", some (.literal (.vint 5))) ]
    [ .returnStatement (some (.binaryOp (.identifier "p") "+" (.identifier "q"))) ]

/-- Script: union P in the global scope, fnc f() that defines a
struct also named P locally and constructs P with field a. -/
def progUnionShadow : List Node :=
  [ .unionDef "P" [ ("a", none, none), ("b", none, none) ],
    .functionDef "f" []
      [ .structDef "P" [ ("a", none, none) ],
        .returnStatement (some (.structLiteralNamed "P" [ ("a", .literal (.vint 1)) ])) ],
    .varDecl none "u" (.functionCall "f" []) false true ]

/-- Script: union U, then a construction supplying two fields. -/
def progUnionTwoFields : List Node :=
  [ .unionDef "U" [ ("a", none, none), ("b", none, none) ],
    .varDecl none "u"
      (.structLiteralNamed "U" [ ("a", .literal (.vint 1)), ("b", .literal (.vint 2)) ])
      false true ]

/-- Script: union U, u = U with active field a, then u.a. -/
def progUnionActive : List Node :=
  [ .unionDef "U" [ ("a", none, none), ("b", none, none) ],
    .varDecl none "u" (.structLiteralNamed "U" [ ("a", .literal (.vint 1)) ]) false true,
    .varDecl none "va" (.memberAccess (.identifier "u") "a") false true ]

/-- Script: union U, u = U with active field a, then u.b. -/
def progUnionInactive : List Node :=
  [ .unionDef "U" [ ("a", none, none), ("b", none, none) ],
    .varDecl none "u" (.structLiteralNamed "U" [ ("a", .literal (.vint 1)) ]) false true,
    .varDecl none "vb" (.memberAccess (.identifier "u") "b") false true ]

/-- Script: const PI = 3.14, then PI = 1. -/
def progConst : List Node :=
  [ .varDecl none "PI" (.literal (.vrat (3.14 : Rat))) true true,
    .assignment "PI" (.literal (.vint 1)) ]

/-- Script: match 42 with a bare-identifier arm guarded false and a
wildcard arm. -/
def progMatchBind : List Node :=
  [ .matchStatement (.literal (.vint 42))
      [ (.identifier "x", some (.literal (.vbool false)),
         [ .printStatement (.literal (.vstr "first")) ]),
        (.identifier "_", none,
         [ .printStatement (.literal (.vstr "second")) ]) ] ]

/-- Script: uint8 x = 300. -/
def progWrapDecl : List Node :=
  [ .varDecl (some "uint8") "x" (.literal (.vint 300)) false true ]

/-- Script: uint8 x = 0, then x = 300. -/
def progWrapAssign : List Node :=
  [ .varDecl (some "uint8") "x" (.literal (.vint 0)) false true,
    .assignment "x" (.literal (.vint 300)) ]

/-! ## Helper lemmas on the environment primitives -/

theorem lookup_upsert {β : Type} (l : List (String × β)) (x : String) (b : β) :
    List.lookup x (upsert l x b) = some b := by
  induction l with
  | nil => simp [upsert, List.lookup]
  | cons hd tl ih =>
    obtain ⟨y, c⟩ := hd
    by_cases h : y = x
    · simp [upsert, h, List.lookup]
    · have hyx : (y == x) = false := by simp [h]
      have hxy : (x == y) = false := by
        simp only [beq_eq_false_iff_ne]
        exact fun hc => h hc.symm
      simp [upsert, hyx, List.lookup, hxy, ih]

theorem length_set_envs (st : St) (i : Nat) (e : EnvRec) :
    ({ st with envs := st.envs.set i e } : St).envs.length = st.envs.length := by
  simp

/-- Updating a const binding is rejected wherever it sits in the
chain. -/
theorem pySet_const_err (fuel : Nat) :
    ∀ (st : St) (i : Nat) (x : String) (v : Value) (entry : VarEntry),
    lookupEntry st fuel i x = some entry → entry.isConst = true →
    pySet st fuel i x v =
      .error ("RuntimeError", "Cannot assign to const variable " ++ sq ++ x ++ sq) := by
  induction fuel with
  | zero => intro st i x v entry h; simp [lookupEntry] at h
  | succ fuel ih =>
    intro st i x v entry h hconst
    rw [lookupEntry] at h
    rw [pySet]
    cases hge : st.envs.get? i with
    | none => rw [hge] at h; simp at h
    | some e =>
      rw [hge] at h
      dsimp only at h ⊢
      cases hlk : e.vars.lookup x with
      | some ent =>
        rw [hlk] at h
        dsimp only at h
        rw [Option.some.injEq] at h
        subst h
        simp [hconst]
      | none =>
        rw [hlk] at h
        dsimp only at h ⊢
        cases hp : e.parent with
        | none => rw [hp] at h; simp at h
        | some p =>
          rw [hp] at h
          exact ih st p x v entry h hconst

/-- Updating an untyped, mutable, non-const binding succeeds: the
nearest owner of the name is overwritten in place, every environment
that does not own the name is untouched, and a fresh lookup sees the
new value. -/
theorem pySet_untyped_ok (fuel : Nat) :
    ∀ (st : St) (i : Nat) (x : String) (v : Value) (entry : VarEntry),
    lookupEntry st fuel i x = some entry → entry.isConst = false →
    entry.isMut = true → entry.varType = none →
    ∃ st2, pySet st fuel i x v = .ok st2 ∧
      lookupEntry st2 fuel i x = some ⟨v, none, false, true⟩ ∧
      st2.envs.length = st.envs.length ∧
      (∀ k ek, st.envs.get? k = some ek → List.lookup x ek.vars = none →
        st2.envs.get? k = some ek) := by
  induction fuel with
  | zero => intro st i x v entry h; simp [lookupEntry] at h
  | succ fuel ih =>
    intro st i x v entry h hconst hmut hty
    rw [lookupEntry] at h
    rw [pySet]
    cases hge : st.envs.get? i with
    | none => rw [hge] at h; simp at h
    | some e =>
      rw [hge] at h
      dsimp only at h ⊢
      cases hlk : e.vars.lookup x with
      | some ent =>
        rw [hlk] at h
        dsimp only at h
        rw [Option.some.injEq] at h
        subst h
        have hlen : i < st.envs.length := by
          by_contra hc
          push_neg at hc
          rw [List.get?_eq_none.2 hc] at hge
          exact Option.noConfusion hge
        dsimp only
        rw [hconst, hmut, hty]
        simp only [Bool.false_eq_true, if_false, Bool.not_true, wrapValue]
        refine ⟨_, rfl, ?_, by simp, ?_⟩
        · rw [lookupEntry]
          simp only [List.get?_set_eq_of_lt _ hlen]
          rw [lookup_upsert]
        · intro k ek hk hlkk
          by_cases hki : k = i
          · subst hki
            rw [hk] at hge
            cases hge
            rw [hlk] at hlkk
            exact Option.noConfusion hlkk
          · dsimp only
            rw [List.get?_set_ne _ _ (fun hh => hki hh.symm)]
            exact hk
      | none =>
        rw [hlk] at h
        dsimp only at h ⊢
        cases hp : e.parent with
        | none => rw [hp] at h; simp at h
        | some p =>
          rw [hp] at h
          obtain ⟨st2, hset, hlook, hlen2, hpres⟩ := ih st p x v entry h hconst hmut hty
          refine ⟨st2, hset, ?_, hlen2, hpres⟩
          rw [lookupEntry]
          rw [hpres i e hge hlk]
          dsimp only
          rw [hlk, hp]
          exact hlook

/-- Defining an untyped binding in a valid environment succeeds and a
fresh lookup from that environment sees it. -/
theorem pyDefine_lookup (st : St) (i : Nat) (x : String) (v : Value) (c m : Bool)
    (e : EnvRec) (hge : st.envs.get? i = some e) :
    ∃ st2, pyDefine st i x v none c m = .ok st2 ∧
      (∀ fuel, lookupEntry st2 (fuel + 1) i x = some ⟨v, none, c, m⟩) ∧
      st2.envs.length = st.envs.length ∧
      (c = false → m = true → defineD st i x v = st2) := by
  have hlen : i < st.envs.length := by
    by_contra hc
    push_neg at hc
    rw [List.get?_eq_none.2 hc] at hge
    exact Option.noConfusion hge
  have hdef : pyDefine st i x v none c m =
      .ok { st with envs := st.envs.set i ({ e with vars := upsert e.vars x ⟨v, none, c, m⟩ }) } := by
    rw [pyDefine, hge]
    rfl
  refine ⟨_, hdef, ?_, by simp, ?_⟩
  · intro fuel
    rw [lookupEntry]
    simp only [List.get?_set_eq_of_lt _ hlen]
    rw [lookup_upsert]
  · intro hc hm
    subst hc
    subst hm
    rw [defineD, hdef]

/-! ## Claim theorems -/

/-- Claim C9, counterexample.  The claim states that the raw and
multi-line string forms are tried before the plain string form; in
`TOKEN_SPEC` the plain `STRING` pattern (index 9) precedes both
`RAW_STRING` (index 10) and `MULTILINE_STRING` (index 11), so neither
ordering of the claim holds. -/
theorem claim9_string_order_counterexample :
    ¬ (specIdx "RAW_STRING" < specIdx "STRING" ∧
       specIdx "MULTILINE_STRING" < specIdx "STRING") := by
  decide

/-- Claim C9, amended.  The lexer alternation tries hex-float before
hex-int before octal and binary; bigint-suffixed and decimal-suffixed
numbers before plain float before plain int; and the interpolated
string form before the plain string form — but the plain string form
precedes the raw and multi-line string forms (so a triple-quoted
opening is consumed as an empty plain string first). -/
theorem claim9_token_spec_order :
    specIdx "FLOAT_HEX" < specIdx "INT_HEX" ∧
    specIdx "INT_HEX" < specIdx "INT_OCTAL" ∧
    specIdx "INT_HEX" < specIdx "INT_BINARY" ∧
    specIdx "BIGINT" < specIdx "FLOAT" ∧
    specIdx "DECIMAL" < specIdx "FLOAT" ∧
    specIdx "FLOAT" < specIdx "NUMBER" ∧
    specIdx "STRING_INTERP" < specIdx "STRING" ∧
    specIdx "STRING" < specIdx "RAW_STRING" ∧
    specIdx "STRING" < specIdx "MULTILINE_STRING" := by
  decide

/-- Claim C1.  Sized-integer wrap: for every integer v the unsigned
wrap is the claimed mask `v & (2^N - 1)`, the signed wrap is the
claimed `((v + 2^(N-1)) mod 2^N) - 2^(N-1)`, and the usize wrap is
`v mod 2^64`; and the wrap is applied at declaration (`uint8 x = 300`
stores 44), at assignment (`x = 300` on a uint8 binding stores 44),
and at explicit constructor syntax (`uint8(300)` evaluates to 44,
`int8(130)` to -126, `usize(-1)` to `2^64 - 1`). -/
theorem claim1_sized_integer_wrap :
    (∀ v : Int,
      (wrap_type "uint8" v = Int.land v (2 ^ 8 - 1) ∧
       wrap_type "uint16" v = Int.land v (2 ^ 16 - 1) ∧
       wrap_type "uint32" v = Int.land v (2 ^ 32 - 1) ∧
       wrap_type "uint64" v = Int.land v (2 ^ 64 - 1) ∧
       wrap_type "uint128" v = Int.land v (2 ^ 128 - 1) ∧
       wrap_type "uint256" v = Int.land v (2 ^ 256 - 1)) ∧
      (wrap_type "int8" v = (v + 2 ^ 7) % 2 ^ 8 - 2 ^ 7 ∧
       wrap_type "int16" v = (v + 2 ^ 15) % 2 ^ 16 - 2 ^ 15 ∧
       wrap_type "int32" v = (v + 2 ^ 31) % 2 ^ 32 - 2 ^ 31 ∧
       wrap_type "int64" v = (v + 2 ^ 63) % 2 ^ 64 - 2 ^ 63 ∧
       wrap_type "int128" v = (v + 2 ^ 127) % 2 ^ 128 - 2 ^ 127 ∧
       wrap_type "int256" v = (v + 2 ^ 255) % 2 ^ 256 - 2 ^ 255) ∧
      wrap_type "usize" v = v % 2 ^ 64 ∧
      wrap_type "isize" v = (v + 2 ^ 63) % 2 ^ 64 - 2 ^ 63) ∧
    getVarD (evalProgram 30 progWrapDecl).1 0 "x" = some (.vint 44) ∧
    getVarD (evalProgram 30 progWrapAssign).1 0 "x" = some (.vint 44) ∧
    (eval 3 initSt 0 (.uintLiteral (.literal (.vint 300)) 8)).2 = .ok (.vint 44) ∧
    (eval 3 initSt 0 (.intLiteral (.literal (.vint 130)) 8)).2 = .ok (.vint (-126)) ∧
    (eval 3 initSt 0 (.sizeIntLiteral (.literal (.vint (-1))) false)).2 =
      .ok (.vint (2 ^ 64 - 1)) := by
  refine ⟨?_, rfl, rfl, rfl, rfl, rfl⟩
  intro v
  have hm : ∀ n : Nat, Int.fmod v (2 ^ n) = v % 2 ^ n := fun n =>
    Int.fmod_eq_emod v (by positivity)
  have hs : ∀ n : Nat, Int.fmod (v + 2 ^ n) (2 ^ (n + 1)) = (v + 2 ^ n) % 2 ^ (n + 1) :=
    fun n => Int.fmod_eq_emod _ (by positivity)
  refine ⟨⟨rfl, rfl, rfl, rfl, rfl, rfl⟩, ⟨?_, ?_, ?_, ?_, ?_, ?_⟩, ?_, ?_⟩
  · exact congrArg (· - (2 ^ 7 : Int)) (hs 7)
  · exact congrArg (· - (2 ^ 15 : Int)) (hs 15)
  · exact congrArg (· - (2 ^ 31 : Int)) (hs 31)
  · exact congrArg (· - (2 ^ 63 : Int)) (hs 63)
  · exact congrArg (· - (2 ^ 127 : Int)) (hs 127)
  · exact congrArg (· - (2 ^ 255 : Int)) (hs 255)
  · exact hm 64
  · exact congrArg (· - (2 ^ 63 : Int)) (hs 63)

/-- Claim C2.  For every binary operation the left operand is
evaluated first and the right operand second, unconditionally: if the
left evaluation takes the state to st1 and the right takes st1 to
st2, the whole operation ends in st2 with the operator applied to
both values — including for logical and/or, whose result is selected
by the left operand's truthiness only after both side effects have
happened.  Concretely, for a() falsy, `a() and b()` runs the print
side effects of both a() and b(), in that order. -/
theorem claim2_operands_always_evaluated
    (fuel : Nat) (st st1 st2 : St) (env : Nat) (l r : Node) (op : String) (v1 v2 : Value)
    (hl : eval fuel st env l = (st1, .ok v1))
    (hr : eval fuel st1 env r = (st2, .ok v2)) :
    eval (fuel + 1) st env (.binaryOp l op r) =
      (st2, match applyBin op v1 v2 with
            | .ok v => Outcome.ok v
            | .error e => wrapErr e) ∧
    eval (fuel + 1) st env (.binaryOp l "and" r) =
      (st2, .ok (if truthy v1 then v2 else v1)) ∧
    eval (fuel + 1) st env (.binaryOp l "or" r) =
      (st2, .ok (if truthy v1 then v1 else v2)) ∧
    (evalProgram 30 progAnd).1.output = ["A", "B"] ∧
    getVarD (evalProgram 30 progAnd).1 0 "r" = some (.vbool false) := by
  refine ⟨?_, ?_, ?_, rfl, rfl⟩
  · rw [eval, evalStep, hl]
    dsimp only
    rw [hr]
  · rw [eval, evalStep, hl]
    dsimp only
    rw [hr]
    rfl
  · rw [eval, evalStep, hl]
    dsimp only
    rw [hr]
    rfl

/-- Witness for claim C2 at concrete operands: 0 and 1 evaluates to
the falsy left operand. -/
theorem claim2_witness :
    eval 2 initSt 0 (.binaryOp (.literal (.vint 0)) "and" (.literal (.vint 1))) =
      (initSt, .ok (.vint 0)) :=
  (claim2_operands_always_evaluated 1 initSt initSt initSt 0
    (.literal (.vint 0)) (.literal (.vint 1)) "and" (.vint 0) (.vint 1) rfl rfl).2.1

/-- Claim C3.  A function or lambda value captures a handle to its
defining environment: evaluating a lambda or function definition
stores the current environment index in the value; every call
allocates a fresh frame whose parent is exactly the captured index;
and mutation through the capture is shared — the closure counter
program returns 1 from its first invocation and 2 from its second. -/
theorem claim3_closures_capture_shared_environment :
    (getVarD (evalProgram 30 progClosure).1 0 "a" = some (.vint 1) ∧
     getVarD (evalProgram 30 progClosure).1 0 "b" = some (.vint 2)) ∧
    (∀ (st : St) (p : Option Nat),
      (pushEnv st p).2.envs.get? (pushEnv st p).1 = some ⟨[], p, [], []⟩) ∧
    (∀ (fuel : Nat) (st : St) (env : Nat) (ps : List String) (bd : Node),
      eval (fuel + 1) st env (.lambdaExpr ps bd) = (st, .ok (.vlambda ps bd env))) ∧
    (∀ (fuel : Nat) (st : St) (env : Nat) (f : String)
       (ps : List (Option String × String × Option Node)) (bd : List Node)
       (e : EnvRec), st.envs.get? env = some e →
      (eval (fuel + 1) st env (.functionDef f ps bd)).2 = .ok (.vfunc f ps bd env) ∧
      getVarD (eval (fuel + 1) st env (.functionDef f ps bd)).1 env f =
        some (.vfunc f ps bd env)) := by
  refine ⟨⟨rfl, rfl⟩, ?_, ?_, ?_⟩
  · intro st p
    simp [pushEnv, List.get?_concat_length]
  · intro fuel st env ps bd
    rfl
  · intro fuel st env f ps bd e hge
    obtain ⟨st2, hdef, hlook, hlen, _⟩ :=
      pyDefine_lookup st env f (.vfunc f ps bd env) true true e hge
    have hev : eval (fuel + 1) st env (.functionDef f ps bd) =
        (st2, .ok (.vfunc f ps bd env)) := by
      rw [eval, evalStep, hdef]
    rw [hev]
    refine ⟨rfl, ?_⟩
    rw [getVarD, hlook st2.envs.length]
    rfl

/-- Witness for claim C3: defining a function in the fresh global
environment stores a closure value capturing environment 0 and makes
it immediately visible. -/
theorem claim3_witness :
    (eval 1 initSt 0 (.functionDef "idf" [] [])).2 = .ok (.vfunc "idf" [] [] 0) ∧
    getVarD (eval 1 initSt 0 (.functionDef "idf" [] [])).1 0 "idf" =
      some (.vfunc "idf" [] [] 0) :=
  (claim3_closures_capture_shared_environment).2.2.2 0 initSt 0 "idf" [] []
    ⟨[], none, [], []⟩ rfl

/-- Claim C10.  A bare-identifier pattern in a match arm defines the
binding directly in the current environment and reports a match; the
binding persists after the match statement even when that arm's guard
is false and a later arm fires — in the concrete program, matching 42
against the arm x if false leaves x bound to 42 while the wildcard
arm's body is the one that runs. -/
theorem claim10_match_binding_escapes
    : (∀ (fuel : Nat) (st : St) (env : Nat) (x : String) (v : Value) (e : EnvRec),
        (x == "_") = false → st.envs.get? env = some e →
        matchPattern (fuel + 1) st env (.identifier x) v = (defineD st env x v, true) ∧
        getVarD (defineD st env x v) env x = some v) ∧
      getVarD (evalProgram 30 progMatchBind).1 0 "x" = some (.vint 42) ∧
      (evalProgram 30 progMatchBind).1.output = ["second"] ∧
      (evalProgram 30 progMatchBind).2 = .ok .vnull := by
  refine ⟨?_, rfl, rfl, rfl⟩
  intro fuel st env x v e hx hge
  obtain ⟨st2, hdef, hlook, hlen, hdd⟩ := pyDefine_lookup st env x v false true e hge
  have hD : defineD st env x v = st2 := hdd rfl rfl
  constructor
  · rw [matchPattern]
    simp [hx]
  · rw [hD, getVarD, hlook st2.envs.length]
    rfl

/-- Witness for claim C10: binding z to 7 through an identifier
pattern in the global environment. -/
theorem claim10_witness :
    matchPattern 1 initSt 0 (.identifier "z") (.vint 7) =
      (defineD initSt 0 "z" (.vint 7), true) ∧
    getVarD (defineD initSt 0 "z" (.vint 7)) 0 "z" = some (.vint 7) :=
  (claim10_match_binding_escapes).1 0 initSt 0 "z" (.vint 7) ⟨[], none, [], []⟩ rfl rfl

/-- While loops never leak a break signal: a break raised in the
condition or the body (at any nesting depth not already absorbed by
an inner construct) is caught by the loop. -/
theorem while_no_brk (fuel : Nat) :
    ∀ (st : St) (env : Nat) (c : Node) (b : List Node) (v : Value),
    (eval fuel st env (.whileLoop c b)).2 ≠ .brk v := by
  induction fuel with
  | zero => intro st env c b v; simp [eval]
  | succ fuel ih =>
    intro st env c b v
    rw [eval, evalStep]
    rcases h1 : eval fuel st env c with ⟨st1, o1⟩
    cases o1 with
    | ok cv =>
      dsimp only
      by_cases ht : truthy cv
      · simp only [ht, if_true]
        rcases h2 : runSeq (eval fuel) st1 env b with ⟨st2, o2⟩
        cases o2 with
        | ok v2 => dsimp only; exact ih st2 env c b v
        | ret v2 => simp
        | brk v2 => simp
        | cont => dsimp only; exact ih st2 env c b v
        | err t m => simp
      · simp only [ht, if_false]
        simp
    | ret rv => simp
    | brk bv => simp
    | cont => simp
    | err t m => simp

/-- Claim C4, counterexample.  In the concrete program, f is a
function whose whole body is a bare break statement; evaluating the
call f() yields the break signal itself: eval_function_call catches
only ReturnException, so the break crosses the function boundary,
contradicting the claim that break unwinds at most to the nearest
enclosing loop and never crosses a function boundary. -/
theorem claim4_break_crosses_function_counterexample :
    (evalProgram 30 progBreakEscape).2 = .brk .vnull ∧
    Outcome.brk Value.vnull ≠ Outcome.err "RuntimeError" "break outside loop" := by
  exact ⟨rfl, by simp⟩

/-- Claim C4, amended.  Return unwinds to the nearest enclosing
function frame through plain loop/switch nesting (the nested-return
program yields 7), and a while loop never lets a break signal
escape; but an enclosing switch intercepts a nested break,
terminating only the switch (the loop completes all three
iterations), a break in a function body with no enclosing loop
escapes the call and terminates the caller's loop after its first
iteration, and a try block with a bare catch clause intercepts a
return signal like an ordinary exception (g returns 2, not 1). -/
theorem claim4_signal_unwinding :
    (∀ (fuel : Nat) (st : St) (env : Nat) (c : Node) (b : List Node) (v : Value),
      (eval fuel st env (.whileLoop c b)).2 ≠ .brk v) ∧
    getVarD (evalProgram 30 progReturnNested).1 0 "r" = some (.vint 7) ∧
    (getVarD (evalProgram 40 progSwitchBreak).1 0 "i" = some (.vint 3) ∧
     getVarD (evalProgram 40 progSwitchBreak).1 0 "n" = some (.vint 3) ∧
     (evalProgram 40 progSwitchBreak).2 = .ok .vnull) ∧
    (getVarD (evalProgram 30 progBreakCross).1 0 "hits" = some (.vint 1) ∧
     (evalProgram 30 progBreakCross).2 = .ok .vnull) ∧
    getVarD (evalProgram 30 progTryReturn).1 0 "r" = some (.vint 2) :=
  ⟨fun fuel => while_no_brk fuel, rfl, ⟨rfl, rfl, rfl⟩, ⟨rfl, rfl⟩, rfl⟩

/-- Script: f2 called with no argument (below the one required). -/
def progF2Call0 : List Node := [ defF2, .functionCall "f2" [] ]

/-- Script: f2 called with one argument (the default fills q). -/
def progF2Call1 : List Node :=
  [ defF2, .varDecl none "r" (.functionCall "f2" [ .literal (.vint 1) ]) false true ]

/-- Script: f2 called with two arguments. -/
def progF2Call2 : List Node :=
  [ defF2,
    .varDecl none "r"
      (.functionCall "f2" [ .literal (.vint 1), .literal (.vint 2) ]) false true ]

/-- Script: f2 called with three arguments (above the two declared). -/
def progF2Call3 : List Node :=
  [ defF2,
    .functionCall "f2" [ .literal (.vint 1), .literal (.vint 2), .literal (.vint 3) ] ]

/-- Claim C5, counterexample.  The claim says a missing argument's
default expression is evaluated in the new call frame.  In the
concrete program the defining scope of f (reachable from the new
frame, whose parent is the captured defining environment) binds y to
10, while the caller g binds a local y to 99: the parameter x ends up
bound to 99, the caller's value — the source evaluates the default
before switching self.env, i.e. in the caller's environment, not in
the new frame (the new frame, arena index 2, still resolves y to 10). -/
theorem claim5_default_env_counterexample :
    getVarD (evalProgram 30 progDefaultEnv).1 0 "r" = some (.vint 99) ∧
    getVarD (evalProgram 30 progDefaultEnv).1 2 "y" = some (.vint 10) ∧
    (some (Value.vint 99) : Option Value) ≠ some (Value.vint 10) :=
  ⟨rfl, rfl, by simp⟩

/-- Claim C5, amended.  Parameters bind left-to-right, taking the
supplied argument when present, else the declared default expression
evaluated in the caller's environment, else null; a call whose
argument count is below the number of parameters without defaults or
above the total parameter count raises the arity error before any
frame is created, and in-range counts do not: f2(p, q = 5) called
with 1 and 2 arguments succeeds (6 and 3), with 0 and 3 arguments
raises exactly the arity error. -/
theorem claim5_call_protocol
    (fuel : Nat) (st : St) (env : Nat) (fname : String) (args : List Node)
    (nm : String) (ps : List (Option String × String × Option Node))
    (bd : List Node) (envC : Nat)
    (hf : getVarD st env fname = some (.vfunc nm ps bd envC))
    (hcount : args.length < requiredCount ps ∨ ps.length < args.length) :
    eval (fuel + 1) st env (.functionCall fname args) =
      (st, .err "RuntimeError" (arityMsg nm (requiredCount ps) ps.length args.length)) ∧
    getVarD (evalProgram 30 progF2Call1).1 0 "r" = some (.vint 6) ∧
    getVarD (evalProgram 30 progF2Call2).1 0 "r" = some (.vint 3) ∧
    (evalProgram 30 progF2Call0).2 = .err "RuntimeError" (arityMsg "f2" 1 2 0) ∧
    (evalProgram 30 progF2Call3).2 = .err "RuntimeError" (arityMsg "f2" 1 2 3) ∧
    getVarD (evalProgram 30 progDefaultEnv).1 0 "r" = some (.vint 99) := by
  refine ⟨?_, rfl, rfl, rfl, rfl, rfl⟩
  rw [eval, evalStep, hf]
  dsimp only
  rw [if_pos hcount]

/-- Witness for claim C5: calling f2 with no arguments from the state
in which it was just defined raises the arity error 1-2, got 0. -/
theorem claim5_witness :
    eval 3 (eval 2 initSt 0 defF2).1 0 (.functionCall "f2" []) =
      ((eval 2 initSt 0 defF2).1, .err "RuntimeError" (arityMsg "f2" 1 2 0)) := by
  show eval (2 + 1) (eval 2 initSt 0 defF2).1 0 (.functionCall "f2" []) = _
  exact (claim5_call_protocol 2 (eval 2 initSt 0 defF2).1 0 "f2" []
    "f2" [ (none, "p", none), (none, "q", some (.literal (.vint 5))) ]
    [ .returnStatement (some (.binaryOp (.identifier "p") "+" (.identifier "q"))) ] 0
    rfl (Or.inl (by decide))).1

/-- Claim C6, counterexample.  With x bound to 5, the prefix form
++x evaluates to 6 (the updated value) and the postfix form x++
evaluates to 5 (the original value) — the opposite of the claim,
which says prefix returns the pre-value and postfix the post-value. -/
theorem claim6_prefix_postfix_counterexample :
    (eval 3 (defineD initSt 0 "x" (.vint 5)) 0
        (.unaryOp "++" (.identifier "x"))).2 = .ok (.vint 6) ∧
    (eval 3 (defineD initSt 0 "x" (.vint 5)) 0
        (.unaryOp "++_post" (.identifier "x"))).2 = .ok (.vint 5) ∧
    Outcome.ok (Value.vint 6) ≠ Outcome.ok (Value.vint 5) :=
  ⟨rfl, rfl, by simp⟩

/-- Step equation of the prefix increment on an identifier. -/
theorem evalStep_preinc (fuel : Nat) (recur : Recur) (st : St) (env : Nat) (x : String) :
    evalStep fuel recur st env (.unaryOp "++" (.identifier x)) =
      match recur st env (.identifier x) with
      | (st1, .ok v) =>
        match applyBin "+" v (.vint 1) with
        | .ok nv =>
          match pySetD st1 env x nv with
          | .ok st2 => (st2, .ok nv)
          | .error er => (st1, wrapErr er)
        | .error er => (st1, wrapErr er)
      | r => r := rfl

/-- Step equation of the postfix increment on an identifier. -/
theorem evalStep_postinc (fuel : Nat) (recur : Recur) (st : St) (env : Nat) (x : String) :
    evalStep fuel recur st env (.unaryOp "++_post" (.identifier x)) =
      match recur st env (.identifier x) with
      | (st1, .ok v) =>
        match applyBin "+" v (.vint 1) with
        | .ok nv =>
          match pySetD st1 env x nv with
          | .ok st2 => (st2, .ok v)
          | .error er => (st1, wrapErr er)
        | .error er => (st1, wrapErr er)
      | r => r := rfl

/-- Step equation of the prefix decrement on an identifier. -/
theorem evalStep_predec (fuel : Nat) (recur : Recur) (st : St) (env : Nat) (x : String) :
    evalStep fuel recur st env (.unaryOp "--" (.identifier x)) =
      match recur st env (.identifier x) with
      | (st1, .ok v) =>
        match applyBin "-" v (.vint 1) with
        | .ok nv =>
          match pySetD st1 env x nv with
          | .ok st2 => (st2, .ok nv)
          | .error er => (st1, wrapErr er)
        | .error er => (st1, wrapErr er)
      | r => r := rfl

/-- Step equation of the postfix decrement on an identifier. -/
theorem evalStep_postdec (fuel : Nat) (recur : Recur) (st : St) (env : Nat) (x : String) :
    evalStep fuel recur st env (.unaryOp "--_post" (.identifier x)) =
      match recur st env (.identifier x) with
      | (st1, .ok v) =>
        match applyBin "-" v (.vint 1) with
        | .ok nv =>
          match pySetD st1 env x nv with
          | .ok st2 => (st2, .ok v)
          | .error er => (st1, wrapErr er)
        | .error er => (st1, wrapErr er)
      | r => r := rfl

/-- Claim C6, amended.  Prefix and postfix increment and decrement
operators are legal only on a
bound identifier (a non-identifier operand and an unbound identifier
are runtime errors), mutate the binding in the environment in place,
and return the post-value (updated) for the prefix form and the
pre-value (original) for the postfix form. -/
theorem claim6_incdec_semantics
    (fuel : Nat) (st : St) (env : Nat) (x : String) (n : Int)
    (hlk : lookupEntry st (st.envs.length + 1) env x =
      some ⟨.vint n, none, false, true⟩) :
    (∃ st2, eval (fuel + 2) st env (.unaryOp "++" (.identifier x)) =
        (st2, .ok (.vint (n + 1))) ∧
      getVarD st2 env x = some (.vint (n + 1))) ∧
    (∃ st2, eval (fuel + 2) st env (.unaryOp "++_post" (.identifier x)) =
        (st2, .ok (.vint n)) ∧
      getVarD st2 env x = some (.vint (n + 1))) ∧
    (∃ st2, eval (fuel + 2) st env (.unaryOp "--" (.identifier x)) =
        (st2, .ok (.vint (n - 1))) ∧
      getVarD st2 env x = some (.vint (n - 1))) ∧
    (∃ st2, eval (fuel + 2) st env (.unaryOp "--_post" (.identifier x)) =
        (st2, .ok (.vint n)) ∧
      getVarD st2 env x = some (.vint (n - 1))) ∧
    (∀ lv : Lit, eval (fuel + 2) st env (.unaryOp "++" (.literal lv)) =
      (st, .err "RuntimeError" "Cannot increment non-variable")) ∧
    (∀ y : String, getVarD st env y = none →
      eval (fuel + 2) st env (.unaryOp "++" (.identifier y)) =
        (st, .err "RuntimeError" ("Variable " ++ sq ++ y ++ sq ++ " not defined"))) := by
  have hget : getVarD st env x = some (.vint n) := by
    rw [getVarD, hlk]; rfl
  have hid : eval (fuel + 1) st env (.identifier x) = (st, .ok (.vint n)) := by
    rw [eval, evalStep, hget]
  have hsetp : ∀ v : Value,
      pySetD st env x v = pySet st (st.envs.length + 1) env x v := fun _ => rfl
  refine ⟨?_, ?_, ?_, ?_, ?_, ?_⟩
  · obtain ⟨st2, hset, hlook, hlen, _⟩ :=
      pySet_untyped_ok (st.envs.length + 1) st env x (.vint (n + 1)) _ hlk rfl rfl rfl
    refine ⟨st2, ?_, ?_⟩
    · rw [eval, evalStep_preinc, hid]
      dsimp only
      rw [show applyBin "+" (Value.vint n) (Value.vint 1) = .ok (.vint (n + 1)) from rfl]
      dsimp only
      rw [hsetp, hset]
    · rw [getVarD, hlen, hlook]; rfl
  · obtain ⟨st2, hset, hlook, hlen, _⟩ :=
      pySet_untyped_ok (st.envs.length + 1) st env x (.vint (n + 1)) _ hlk rfl rfl rfl
    refine ⟨st2, ?_, ?_⟩
    · rw [eval, evalStep_postinc, hid]
      dsimp only
      rw [show applyBin "+" (Value.vint n) (Value.vint 1) = .ok (.vint (n + 1)) from rfl]
      dsimp only
      rw [hsetp, hset]
    · rw [getVarD, hlen, hlook]; rfl
  · obtain ⟨st2, hset, hlook, hlen, _⟩ :=
      pySet_untyped_ok (st.envs.length + 1) st env x (.vint (n - 1)) _ hlk rfl rfl rfl
    refine ⟨st2, ?_, ?_⟩
    · rw [eval, evalStep_predec, hid]
      dsimp only
      rw [show applyBin "-" (Value.vint n) (Value.vint 1) = .ok (.vint (n - 1)) from rfl]
      dsimp only
      rw [hsetp, hset]
    · rw [getVarD, hlen, hlook]; rfl
  · obtain ⟨st2, hset, hlook, hlen, _⟩ :=
      pySet_untyped_ok (st.envs.length + 1) st env x (.vint (n - 1)) _ hlk rfl rfl rfl
    refine ⟨st2, ?_, ?_⟩
    · rw [eval, evalStep_postdec, hid]
      dsimp only
      rw [show applyBin "-" (Value.vint n) (Value.vint 1) = .ok (.vint (n - 1)) from rfl]
      dsimp only
      rw [hsetp, hset]
    · rw [getVarD, hlen, hlook]; rfl
  · intro lv
    rw [eval, evalStep]
    rw [show eval (fuel + 1) st env (.literal lv) = (st, .ok (litToValue lv)) from by
      rw [eval, evalStep]]
    rfl
  · intro y hy
    rw [eval, evalStep]
    rw [show eval (fuel + 1) st env (.identifier y) =
        (st, .err "RuntimeError" ("Variable " ++ sq ++ y ++ sq ++ " not defined")) from by
      rw [eval, evalStep, hy]]

/-- Witness for claim C6: with x bound to 5 in the global scope, ++x
returns 6 and stores 6. -/
theorem claim6_witness :
    (eval 3 (defineD initSt 0 "x" (.vint 5)) 0 (.unaryOp "++" (.identifier "x"))).2 =
      .ok (.vint 6) := by
  show (eval (1 + 2) (defineD initSt 0 "x" (.vint 5)) 0
    (.unaryOp "++" (.identifier "x"))).2 = .ok (.vint 6)
  obtain ⟨st2, hev, _⟩ :=
    (claim6_incdec_semantics 1 (defineD initSt 0 "x" (.vint 5)) 0 "x" 5 rfl).1
  rw [hev]
  rfl

/-- Claim C7.  Constructing Name braces searches the whole ancestor
chain for a union of that name before any struct search, so a union
definition shadows a same-named struct anywhere in scope (in the
concrete program the union P in the global scope wins over the struct
P defined in the constructing function's own scope); union
construction succeeds only with exactly one supplied named field (two
supplied fields raise the one-field runtime error, and in general any
named field list whose length is not one does); and reading a union
member yields its value when the member is the stored active field
and the not-active runtime error otherwise. -/
theorem claim7_union_construction_and_access :
    getVarD (evalProgram 30 progUnionShadow).1 0 "u" =
      some (.vunion "P" "a" (.vint 1)) ∧
    (evalProgram 30 progUnionTwoFields).2 =
      .err "RuntimeError" "Union \x27U\x27 can only be initialized with one field" ∧
    getVarD (evalProgram 30 progUnionActive).1 0 "va" = some (.vint 1) ∧
    (evalProgram 30 progUnionInactive).2 =
      .err "RuntimeError"
        "Union field \x27b\x27 is not active (active field is \x27a\x27)" ∧
    (∀ (fuel : Nat) (st st1 : St) (env : Nat) (obj : Node) (m un active : String)
       (uval : Value),
      eval fuel st env obj = (st1, .ok (.vunion un active uval)) →
      eval (fuel + 1) st env (.memberAccess obj m) =
        (st1, if m == active then .ok uval
              else .err "RuntimeError"
                ("Union field " ++ sq ++ m ++ sq ++ " is not active (active field is "
                  ++ sq ++ active ++ sq ++ ")"))) ∧
    (∀ (fuel : Nat) (st st1 : St) (env : Nat) (n : String)
       (d : List (String × Option String × Option Node)) (fn : String) (ex : Node)
       (v : Value),
      findUnion st (st.envs.length + 1) env n = some d →
      eval fuel st env ex = (st1, .ok v) →
      eval (fuel + 1) st env (.structLiteralNamed n [(fn, ex)]) =
        (st1, .ok (.vunion n fn v))) ∧
    (∀ (fuel : Nat) (st : St) (env : Nat) (n : String)
       (d : List (String × Option String × Option Node)) (fields : List (String × Node)),
      findUnion st (st.envs.length + 1) env n = some d →
      fields.length ≠ 1 →
      eval (fuel + 1) st env (.structLiteralNamed n fields) =
        (st, .err "RuntimeError"
          ("Union " ++ sq ++ n ++ sq ++ " can only be initialized with one field"))) := by
  refine ⟨rfl, rfl, rfl, rfl, ?_, ?_, ?_⟩
  · intro fuel st st1 env obj m un active uval hobj
    rw [eval, evalStep, hobj]
    dsimp only
    by_cases hm : (m == active) = true
    · rw [if_pos hm]
      rw [hm]
      rfl
    · rw [if_neg (by simpa using hm)]
      rw [Bool.not_eq_true] at hm
      rw [hm]
      rfl
  · intro fuel st st1 env n d fn ex v hfind hex
    rw [eval, evalStep, hfind]
    dsimp only
    rw [hex]
  · intro fuel st env n d fields hfind hlen
    rw [eval, evalStep, hfind]
    dsimp only
    intro fname vexpr heq
    rw [heq] at hlen
    simp at hlen

/-- Witness for claim C7: reading the active field of a stored union
value returns its payload. -/
theorem claim7_witness :
    eval 2 (defineD initSt 0 "u" (.vunion "U" "a" (.vint 1))) 0
        (.memberAccess (.identifier "u") "a") =
      (defineD initSt 0 "u" (.vunion "U" "a" (.vint 1)), .ok (.vint 1)) := by
  show eval (1 + 1) _ 0 _ = _
  exact (claim7_union_construction_and_access).2.2.2.2.1 1
    (defineD initSt 0 "u" (.vunion "U" "a" (.vint 1)))
    (defineD initSt 0 "u" (.vunion "U" "a" (.vint 1))) 0
    (.identifier "u") "a" "U" "a" (.vint 1) rfl

/-- Claim C8.  Assigning to a const-flagged binding raises the
const-violation runtime error and leaves the binding unchanged:
Environment.set rejects a const entry wherever it sits in the chain
before touching any state, the assignment statement then surfaces
exactly that error with the state it had after evaluating the
right-hand side, and in the concrete program PI still evaluates to
3.14 after the failed assignment. -/
theorem claim8_const_assignment_rejected :
    (∀ (fuelL : Nat) (st : St) (env : Nat) (x : String) (v : Value)
       (entry : VarEntry),
      lookupEntry st fuelL env x = some entry → entry.isConst = true →
      pySet st fuelL env x v =
        .error ("RuntimeError", "Cannot assign to const variable " ++ sq ++ x ++ sq)) ∧
    (∀ (fuel : Nat) (st : St) (env : Nat) (x : String) (lv : Lit)
       (entry : VarEntry),
      lookupEntry st (st.envs.length + 1) env x = some entry → entry.isConst = true →
      eval (fuel + 2) st env (.assignment x (.literal lv)) =
        (st, .err "RuntimeError"
          ("Cannot assign to const variable " ++ sq ++ x ++ sq))) ∧
    (evalProgram 30 progConst).2 =
      .err "RuntimeError" "Cannot assign to const variable \x27PI\x27" ∧
    getVarD (evalProgram 30 progConst).1 0 "PI" = some (.vrat (3.14 : Rat)) := by
  refine ⟨?_, ?_, rfl, rfl⟩
  · intro fuelL st env x v entry h hc
    exact pySet_const_err fuelL st env x v entry h hc
  · intro fuel st env x lv entry h hc
    rw [eval, evalStep]
    rw [show eval (fuel + 1) st env (.literal lv) = (st, .ok (litToValue lv)) from by
      rw [eval, evalStep]]
    dsimp only
    rw [show pySetD st env x (litToValue lv) =
        pySet st (st.envs.length + 1) env x (litToValue lv) from rfl]
    rw [pySet_const_err (st.envs.length + 1) st env x (litToValue lv) entry h hc]
    rfl

/-- Witness for claim C8: after const PI = 3.14 (a declaration in the
fresh global state), the assignment PI = 1 yields the const-violation
error with the state untouched. -/
theorem claim8_witness :
    eval 3 (eval 2 initSt 0 (.varDecl none "PI" (.literal (.vrat (3.14 : Rat))) true true)).1
        0 (.assignment "PI" (.literal (.vint 1))) =
      ((eval 2 initSt 0 (.varDecl none "PI" (.literal (.vrat (3.14 : Rat))) true true)).1,
       .err "RuntimeError" "Cannot assign to const variable \x27PI\x27") := by
  show eval (1 + 2) _ 0 _ = _
  exact (claim8_const_assignment_rejected).2.1 1
    (eval 2 initSt 0 (.varDecl none "PI" (.literal (.vrat (3.14 : Rat))) true true)).1
    0 "PI" (.vint 1) ⟨.vrat (3.14 : Rat), none, true, true⟩ rfl rfl

end Zyra
